/-
Verification of the Skybrush converter core (modules/skybrush_converter.py).

Shallow embedding conventions:
* Python floats are modelled as rationals (ℚ); color channels (Python ints)
  as integers (ℤ).
* Python's built-in `round(x, ndigits)` is modelled by `pyRound`
  (round-half-to-even on the scaled value); `round` applied to an `int`
  with an `ndigits` argument returns the integer unchanged, which the
  embedding reflects by emitting color channels as stored.
* Python's stable `sorted` is modelled by `List.insertionSort` (a stable
  sort with the same comparator produces the same output as any other
  stable sort).
* Python dicts are modelled as association lists in insertion order; dict
  key uniqueness appears as `Nodup` hypotheses where it matters.
* Mutating methods are modelled in state-passing style: a method of an
  object returns a pair of its (exception-or-unit) outcome and the state
  of the object after the call; a Python `raise` before any field mutation
  leaves the state component equal to the receiver.
* `natsort.natsorted` is modelled by `natsorted` below: each string is cut
  into maximal digit / non-digit runs, digit runs compare numerically, and
  a digit run sorts before a non-digit run at the same position
  (mirroring the library's padding of number chunks with an empty string).
-/
import Mathlib

set_option maxRecDepth 4000

/-! ### Errors

The Python source raises built-in `ValueError` / `KeyError` /
`NotImplementedError`.  The specification's error taxonomy names these
raise sites `OrderingError` (the two `ValueError`s raised by `append`),
`MismatchedDronesError` (the `ValueError` raised by the converter
constructor) and `ExternalToolMissingError` (the `NotImplementedError`
raised by `to_skyc`); the embedding keeps the source's exception classes
and messages, which identify each raise site uniquely. -/

inductive PyError where
  | valueError (msg : String)
  | keyError (key : String)
  | notImplementedError (msg : String)
deriving DecidableEq, Repr

/-! ### Data model -/

/-- `Point4D` from the source: time plus three spatial coordinates. -/
structure Point4D where
  t : ℚ
  x : ℚ
  y : ℚ
  z : ℚ
deriving DecidableEq, Repr

/-- `Color4D` from the source: time, three integer color channels and the
fade flag. -/
structure Color4D where
  t : ℚ
  r : ℤ
  g : ℤ
  b : ℤ
  is_fade : Bool
deriving DecidableEq, Repr

/-- Round the fraction `num / den` (`den` positive) to the nearest
integer, ties to even. -/
def roundHalfToEvenFrac (num : ℤ) (den : ℕ) : ℤ :=
  let f := num.fdiv den
  let r := num - f * den
  if 2 * r < (den : ℤ) then f
  else if (den : ℤ) < 2 * r then f + 1
  else if f % 2 = 0 then f else f + 1

/-- Model of Python's `round(x, ndigits)` on floats: round half to even at
`ndigits` decimal digits.  `q * 10 ^ ndigits` is the fraction
`q.num * 10 ^ ndigits / q.den`; it is rounded to the integer numerator of
the result. -/
def pyRound (q : ℚ) (ndigits : ℕ) : ℚ :=
  mkRat (roundHalfToEvenFrac (q.num * 10 ^ ndigits) q.den) (10 ^ ndigits)

/-- Sort key `attrgetter("t")` order on points, used by `sorted` in the
`Trajectory` constructor. -/
def ptLE (a b : Point4D) : Prop := a.t ≤ b.t

instance : DecidableRel ptLE := fun a b => inferInstanceAs (Decidable (a.t ≤ b.t))

instance : IsTotal Point4D ptLE := ⟨fun a b => le_total a.t b.t⟩

instance : IsTrans Point4D ptLE := ⟨fun _ _ _ h₁ h₂ => le_trans h₁ h₂⟩

/-- Sort key `attrgetter("t")` order on colors, used by `sorted` in the
`LightCode` constructor. -/
def colorLE (a b : Color4D) : Prop := a.t ≤ b.t

instance : DecidableRel colorLE := fun a b => inferInstanceAs (Decidable (a.t ≤ b.t))

instance : IsTotal Color4D colorLE := ⟨fun a b => le_total a.t b.t⟩

instance : IsTrans Color4D colorLE := ⟨fun _ _ _ h₁ h₂ => le_trans h₁ h₂⟩

/-- `Trajectory`: owns the list `self.points`. -/
structure Trajectory where
  points : List Point4D
deriving DecidableEq, Repr

/-- `Trajectory.__init__`: `self.points = sorted(points, key=attrgetter("t"))`. -/
def Trajectory.ofList (points : List Point4D) : Trajectory :=
  ⟨List.insertionSort ptLE points⟩

/-- `Trajectory.append`, state-passing: the guard `self.points and
self.points[-1].t >= point.t` raises `ValueError` before any mutation;
otherwise the point is appended. -/
def Trajectory.append (self : Trajectory) (point : Point4D) :
    Except PyError Unit × Trajectory :=
  match self.points.getLast? with
  | some last =>
    if last.t ≥ point.t then
      (.error (.valueError "New point must come after existing trajectory in time"), self)
    else
      (.ok (), ⟨self.points ++ [point]⟩)
  | none => (.ok (), ⟨self.points ++ [point]⟩)

/-- One entry of `Trajectory.as_dict`'s `"points"` list:
`[t, [x, y, z], []]`. -/
structure TrajEntry where
  t : ℚ
  coords : ℚ × ℚ × ℚ
  reserved : List ℚ
deriving DecidableEq, Repr

/-- The dictionary returned by `Trajectory.as_dict`. -/
structure TrajDoc where
  points : List TrajEntry
  version : ℕ
deriving DecidableEq, Repr

/-- `Trajectory.as_dict(ndigits)` from the source. -/
def Trajectory.as_dict (self : Trajectory) (ndigits : ℕ) : TrajDoc :=
  { points := self.points.map (fun point =>
      { t := pyRound point.t ndigits
        coords :=
          (pyRound point.x ndigits, pyRound point.y ndigits, pyRound point.z ndigits)
        reserved := [] })
    version := 1 }

/-- `LightCode`: owns the list `self.colors`. -/
structure LightCode where
  colors : List Color4D
deriving DecidableEq, Repr

/-- `LightCode.__init__`: `self.colors = sorted(colors, key=attrgetter("t"))`. -/
def LightCode.ofList (colors : List Color4D) : LightCode :=
  ⟨List.insertionSort colorLE colors⟩

/-- `LightCode.append`, state-passing: the guard `self.colors and
self.colors[-1].t > color.t` (strict) raises `ValueError` before any
mutation; otherwise the color is appended. -/
def LightCode.append (self : LightCode) (color : Color4D) :
    Except PyError Unit × LightCode :=
  match self.colors.getLast? with
  | some last =>
    if last.t > color.t then
      (.error (.valueError "New color must come after existing light code in time"), self)
    else
      (.ok (), ⟨self.colors ++ [color]⟩)
  | none => (.ok (), ⟨self.colors ++ [color]⟩)

/-- One entry of `LightCode.as_dict`'s `"data"` list:
`[t, [r, g, b], is_fade]`. -/
structure LightEntry where
  t : ℚ
  rgb : ℤ × ℤ × ℤ
  is_fade : Bool
deriving DecidableEq, Repr

/-- The dictionary returned by `LightCode.as_dict`. -/
structure LightDoc where
  data : List LightEntry
  version : ℕ
deriving DecidableEq, Repr

/-- `LightCode.as_dict(ndigits)` from the source.  The source passes the
integer channels through `round(·, ndigits=ndigits)`, which returns an
`int` unchanged, so the embedding emits the stored channels. -/
def LightCode.as_dict (self : LightCode) (ndigits : ℕ) : LightDoc :=
  { data := self.colors.map (fun color =>
      { t := pyRound color.t ndigits
        rgb := (color.r, color.g, color.b)
        is_fade := color.is_fade })
    version := 1 }

/-! ### Lexicographic boolean orders

A small self-contained toolkit: `lexLEb leb` is the lexicographic
less-or-equal on lists induced by a boolean total preorder `leb` on
elements.  It is used both for Python's plain string comparison (on
character lists) and for the natural-sort key comparison (on chunk
lists). -/

def lexLEb {α : Type} (leb : α → α → Bool) : List α → List α → Bool
  | [], _ => true
  | _ :: _, [] => false
  | a :: as, b :: bs => leb a b && (!leb b a || lexLEb leb as bs)

theorem lexLEb_total {α : Type} (leb : α → α → Bool)
    (htot : ∀ a b, leb a b = true ∨ leb b a = true) :
    ∀ l₁ l₂, lexLEb leb l₁ l₂ = true ∨ lexLEb leb l₂ l₁ = true := by
  intro l₁
  induction l₁ with
  | nil => intro l₂; left; rfl
  | cons a as ih =>
    intro l₂
    cases l₂ with
    | nil => right; rfl
    | cons b bs =>
      by_cases hab : leb a b = true <;> by_cases hba : leb b a = true
      · rcases ih bs with h | h
        · left; simp [lexLEb, hab, hba, h]
        · right; simp [lexLEb, hab, hba, h]
      · left; simp [lexLEb, hab, hba]
      · right; simp [lexLEb, hab, hba]
      · rcases htot a b with h | h
        · exact absurd h hab
        · exact absurd h hba

theorem lexLEb_trans {α : Type} (leb : α → α → Bool)
    (htr : ∀ a b c, leb a b = true → leb b c = true → leb a c = true) :
    ∀ l₁ l₂ l₃, lexLEb leb l₁ l₂ = true → lexLEb leb l₂ l₃ = true →
      lexLEb leb l₁ l₃ = true := by
  intro l₁
  induction l₁ with
  | nil => intro l₂ l₃ _ _; rfl
  | cons a as ih =>
    intro l₂ l₃ h₁ h₂
    cases l₂ with
    | nil => simp [lexLEb] at h₁
    | cons b bs =>
      cases l₃ with
      | nil => simp [lexLEb] at h₂
      | cons c cs =>
        simp only [lexLEb, Bool.and_eq_true, Bool.or_eq_true,
          Bool.not_eq_true'] at h₁ h₂ ⊢
        obtain ⟨hab, hrest₁⟩ := h₁
        obtain ⟨hbc, hrest₂⟩ := h₂
        refine ⟨htr _ _ _ hab hbc, ?_⟩
        by_cases hca : leb c a = true
        · have hba : leb b a = true := htr _ _ _ hbc hca
          have hcb : leb c b = true := htr _ _ _ hca hab
          rcases hrest₁ with h | h
          · rw [hba] at h; exact absurd h (by simp)
          · rcases hrest₂ with h' | h'
            · rw [hcb] at h'; exact absurd h' (by simp)
            · exact Or.inr (ih bs cs h h')
        · exact Or.inl (by simpa using hca)

theorem lexLEb_antisymm {α : Type} (leb : α → α → Bool)
    (hanti : ∀ a b, leb a b = true → leb b a = true → a = b) :
    ∀ l₁ l₂, lexLEb leb l₁ l₂ = true → lexLEb leb l₂ l₁ = true → l₁ = l₂ := by
  intro l₁
  induction l₁ with
  | nil =>
    intro l₂ _ h₂
    cases l₂ with
    | nil => rfl
    | cons b bs => simp [lexLEb] at h₂
  | cons a as ih =>
    intro l₂ h₁ h₂
    cases l₂ with
    | nil => simp [lexLEb] at h₁
    | cons b bs =>
      simp only [lexLEb, Bool.and_eq_true, Bool.or_eq_true,
        Bool.not_eq_true'] at h₁ h₂
      obtain ⟨hab, hrest₁⟩ := h₁
      obtain ⟨hba, hrest₂⟩ := h₂
      have hhead : a = b := hanti _ _ hab hba
      have htail : as = bs := by
        rcases hrest₁ with h | h
        · rw [hba] at h; exact absurd h (by simp)
        · rcases hrest₂ with h' | h'
          · rw [hab] at h'; exact absurd h' (by simp)
          · exact ih bs h h'
      rw [hhead, htail]

/-- Python string comparison: code-point-wise lexicographic order on the
characters. -/
def charLEb (a b : Char) : Bool := decide (a ≤ b)

theorem charLEb_total (a b : Char) : charLEb a b = true ∨ charLEb b a = true := by
  simp only [charLEb, decide_eq_true_iff]
  exact le_total a b

theorem charLEb_trans (a b c : Char) :
    charLEb a b = true → charLEb b c = true → charLEb a c = true := by
  simp only [charLEb, decide_eq_true_iff]
  exact le_trans

theorem charLEb_antisymm (a b : Char) :
    charLEb a b = true → charLEb b a = true → a = b := by
  simp only [charLEb, decide_eq_true_iff]
  exact le_antisymm

def strLEb (a b : String) : Bool := lexLEb charLEb a.data b.data

/-- Python's default `<=` on strings, used by `sorted` on dict keys in the
converter constructor. -/
def strLE (a b : String) : Prop := strLEb a b = true

instance : DecidableRel strLE := fun a b => inferInstanceAs (Decidable (_ = true))

instance : IsTotal String strLE :=
  ⟨fun a b => lexLEb_total charLEb charLEb_total a.data b.data⟩

instance : IsTrans String strLE :=
  ⟨fun a b c => lexLEb_trans charLEb charLEb_trans a.data b.data c.data⟩

instance : IsAntisymm String strLE :=
  ⟨fun a b h₁ h₂ =>
    congrArg String.mk (lexLEb_antisymm charLEb charLEb_antisymm a.data b.data h₁ h₂)⟩

/-- Model of Python's `sorted` on a list of strings. -/
def pySortedStr (l : List String) : List String := List.insertionSort strLE l

/-! ### Natural sort (model of `natsort.natsorted`)

Each string is cut into maximal runs of decimal digits and non-digits;
digit runs compare as unsigned integers, and at a position where one key
has a digit run and the other a non-digit run, the digit run sorts first
(this mirrors the library's padding of number chunks with a preceding
empty string chunk); a key that is a proper prefix of another sorts
first. -/

inductive NatChunk where
  | str (s : String)
  | num (n : ℕ)
deriving DecidableEq, Repr

def chunkLEb : NatChunk → NatChunk → Bool
  | .num a, .num b => decide (a ≤ b)
  | .num _, .str _ => true
  | .str _, .num _ => false
  | .str a, .str b => strLEb a b

theorem chunkLEb_total (a b : NatChunk) :
    chunkLEb a b = true ∨ chunkLEb b a = true := by
  cases a <;> cases b <;> simp [chunkLEb]
  · exact lexLEb_total charLEb charLEb_total _ _
  · exact Nat.le_total _ _

theorem chunkLEb_trans (a b c : NatChunk) :
    chunkLEb a b = true → chunkLEb b c = true → chunkLEb a c = true := by
  cases a <;> cases b <;> cases c <;> simp [chunkLEb]
  · exact fun h₁ h₂ => lexLEb_trans charLEb charLEb_trans _ _ _ h₁ h₂
  · exact Nat.le_trans

/-- Value of a run of ASCII digits, as computed by Python's `int`. -/
def digitsToNat (l : List Char) : ℕ :=
  l.foldl (fun n c => n * 10 + (c.toNat - 48)) 0

/-- Group a character list into maximal runs of characters agreeing on
`Char.isDigit`; each run is tagged with that flag. -/
def charRuns : List Char → List (Bool × List Char)
  | [] => []
  | c :: cs =>
    match charRuns cs with
    | (b, run) :: rest =>
      if b = c.isDigit then (b, c :: run) :: rest
      else (c.isDigit, [c]) :: (b, run) :: rest
    | [] => [(c.isDigit, [c])]

/-- Cut a character list into maximal digit / non-digit runs. -/
def natChunks (l : List Char) : List NatChunk :=
  (charRuns l).map (fun br =>
    if br.1 then .num (digitsToNat br.2) else .str (String.mk br.2))

/-- The natural-sort key of a string. -/
def natKey (s : String) : List NatChunk := natChunks s.data

def keyLEb : List NatChunk → List NatChunk → Bool := lexLEb chunkLEb

/-- The natural-sort order on strings. -/
def natLE (a b : String) : Prop := keyLEb (natKey a) (natKey b) = true

instance : DecidableRel natLE := fun a b => inferInstanceAs (Decidable (_ = true))

instance : IsTotal String natLE :=
  ⟨fun a b => lexLEb_total chunkLEb chunkLEb_total (natKey a) (natKey b)⟩

instance : IsTrans String natLE :=
  ⟨fun a b c => lexLEb_trans chunkLEb chunkLEb_trans (natKey a) (natKey b) (natKey c)⟩

/-- Model of `natsort.natsorted` on a list of strings. -/
def natsorted (l : List String) : List String := List.insertionSort natLE l

/-! ### The converter -/

/-- Dict key list, in insertion order (`dict.keys()`). -/
def dictKeys {α : Type} (d : List (String × α)) : List String := d.map Prod.fst

/-- Dict lookup (`d[k]` yielding `KeyError` when absent is handled at the
call sites). -/
def dictGet {α : Type} (d : List (String × α)) (k : String) : Option α :=
  (d.find? (fun kv => decide (kv.1 = k))).map Prod.snd

/-- `SkybrushConverter`: the fields `_show_title`, `_trajectories` and
`_lights` (leading underscores dropped). -/
structure SkybrushConverter where
  show_title : String
  trajectories : List (String × Trajectory)
  lights : List (String × LightCode)
deriving DecidableEq

/-- Which of the three converter fields have been assigned when
`__init__` returns or raises. -/
structure InitFields where
  show_title : Option String
  trajectories : Option (List (String × Trajectory))
  lights : Option (List (String × LightCode))
deriving DecidableEq

/-- `SkybrushConverter.__init__`, state-passing: the source first assigns
`self._show_title = show_title`, then compares
`sorted(trajectories.keys())` with `sorted(lights.keys())`, raising
`ValueError` (before the mapping fields are assigned) when they differ,
and assigns `self._trajectories` and `self._lights` otherwise.  The
second component records which fields stood assigned at the moment the
constructor raised or returned. -/
def SkybrushConverter.init (show_title : String)
    (trajectories : List (String × Trajectory))
    (lights : List (String × LightCode)) :
    Except PyError SkybrushConverter × InitFields :=
  if pySortedStr (dictKeys trajectories) ≠ pySortedStr (dictKeys lights) then
    (.error (.valueError
        "Trajectories and lights must contain equal number of items, one for each drone."),
      ⟨some show_title, none, none⟩)
  else
    (.ok ⟨show_title, trajectories, lights⟩,
      ⟨some show_title, some trajectories, some lights⟩)

/-- The `"settings"` sub-dictionary of one drone's entry. -/
structure DroneSettings where
  name : String
  lights : LightDoc
  trajectory : TrajDoc
deriving DecidableEq

/-- One element of the output's `"drones"` list. -/
structure DroneEntry where
  type : String
  settings : DroneSettings
deriving DecidableEq

structure SwarmDoc where
  drones : List DroneEntry
deriving DecidableEq

structure MetaDoc where
  title : String
deriving DecidableEq

/-- The full show document produced by `SkybrushConverter.as_dict`.  The
`settings` field models the constant empty dictionary. -/
structure ShowDoc where
  version : ℕ
  settings : Unit
  swarm : SwarmDoc
  meta : MetaDoc
deriving DecidableEq

/-- `SkybrushConverter._drone_data_as_dict` (dict accesses
`self._lights[name]` and `self._trajectories[name]` raise `KeyError` for
a missing key). -/
def SkybrushConverter.drone_data_as_dict (self : SkybrushConverter)
    (name : String) (ndigits : ℕ) : Except PyError DroneEntry :=
  match dictGet self.lights name with
  | none => .error (.keyError name)
  | some lc =>
    match dictGet self.trajectories name with
    | none => .error (.keyError name)
    | some tr =>
      .ok { type := "generic"
            settings :=
              { name := name
                lights := lc.as_dict ndigits
                trajectory := tr.as_dict ndigits } }

/-- The list comprehension in `SkybrushConverter.as_dict`, over an
explicit name list. -/
def SkybrushConverter.dronesData (self : SkybrushConverter) (ndigits : ℕ) :
    List String → Except PyError (List DroneEntry)
  | [] => .ok []
  | k :: ks =>
    match self.drone_data_as_dict k ndigits with
    | .error e => .error e
    | .ok d =>
      match self.dronesData ndigits ks with
      | .error e => .error e
      | .ok ds => .ok (d :: ds)

/-- `SkybrushConverter.as_dict(ndigits)` from the source: the drones list
is built over `natsorted(self._trajectories.keys())`. -/
def SkybrushConverter.as_dict (self : SkybrushConverter) (ndigits : ℕ) :
    Except PyError ShowDoc :=
  match self.dronesData ndigits (natsorted (dictKeys self.trajectories)) with
  | .error e => .error e
  | .ok ds =>
    .ok { version := 1
          settings := ()
          swarm := { drones := ds }
          meta := { title := self.show_title } }

/-! ### Text serialization (`as_json`)

Models `json.JSONEncoder(indent=indent).encode` applied to the document:
a deterministic pure function of the document.  Exact number formatting,
string escaping and indentation whitespace of the Python encoder are
abstracted; what matters for the claims is that serialization reads the
document and nothing else. -/

def qJson (q : ℚ) : String :=
  if q.den = 1 then toString q.num else toString q.num ++ "/" ++ toString q.den

def jsonList (items : List String) : String :=
  "[" ++ String.intercalate ", " items ++ "]"

def jsonStr (s : String) : String := "\"" ++ s ++ "\""

def TrajEntry.json (e : TrajEntry) : String :=
  jsonList [qJson e.t,
    jsonList [qJson e.coords.1, qJson e.coords.2.1, qJson e.coords.2.2],
    jsonList (e.reserved.map qJson)]

def TrajDoc.json (d : TrajDoc) : String :=
  "\x7b\"points\": " ++ jsonList (d.points.map TrajEntry.json) ++
    ", \"version\": " ++ toString d.version ++ "\x7d"

def LightEntry.json (e : LightEntry) : String :=
  jsonList [qJson e.t,
    jsonList [toString e.rgb.1, toString e.rgb.2.1, toString e.rgb.2.2],
    if e.is_fade then "true" else "false"]

def LightDoc.json (d : LightDoc) : String :=
  "\x7b\"data\": " ++ jsonList (d.data.map LightEntry.json) ++
    ", \"version\": " ++ toString d.version ++ "\x7d"

def DroneEntry.json (d : DroneEntry) : String :=
  "\x7b\"type\": " ++ jsonStr d.type ++ ", \"settings\": \x7b\"name\": " ++
    jsonStr d.settings.name ++ ", \"lights\": " ++ d.settings.lights.json ++
    ", \"trajectory\": " ++ d.settings.trajectory.json ++ "\x7d\x7d"

def ShowDoc.json (d : ShowDoc) : String :=
  "\x7b\"version\": " ++ toString d.version ++
    ", \"settings\": \x7b\x7d, \"swarm\": \x7b\"drones\": " ++
    jsonList (d.swarm.drones.map DroneEntry.json) ++
    "\x7d, \"meta\": \x7b\"title\": " ++ jsonStr d.meta.title ++ "\x7d\x7d"

/-- `SkybrushConverter.as_json(indent, ndigits)`: encode the document
(the `indent` argument only affects whitespace, which the encoder model
abstracts). -/
def SkybrushConverter.as_json (self : SkybrushConverter)
    (indent ndigits : ℕ) : Except PyError String :=
  match self.as_dict ndigits with
  | .error e => .error e
  | .ok d => .ok d.json

/-! ### Method-call (state-passing) views for the export methods

The Python bodies of `as_dict` / `as_json` perform no assignment to any
field of `self`, so the object state after the call is the receiver. -/

def Trajectory.as_dict_run (self : Trajectory) (ndigits : ℕ) :
    TrajDoc × Trajectory :=
  (self.as_dict ndigits, self)

def LightCode.as_dict_run (self : LightCode) (ndigits : ℕ) :
    LightDoc × LightCode :=
  (self.as_dict ndigits, self)

def SkybrushConverter.as_dict_run (self : SkybrushConverter) (ndigits : ℕ) :
    Except PyError ShowDoc × SkybrushConverter :=
  (self.as_dict ndigits, self)

def SkybrushConverter.as_json_run (self : SkybrushConverter)
    (indent ndigits : ℕ) : Except PyError String × SkybrushConverter :=
  (self.as_json indent ndigits, self)

/-! ### `to_skyc` and the temporary-directory discipline

`to_skyc` is modelled by its file-system event trace.  The source wraps
the work in `with TemporaryDirectory() as work_dir:`, writes
`work_dir/show.json` via `to_json`, and then either invokes the external
renderer (when the `skybrush` package imports) or raises
`NotImplementedError`; leaving the `with` block removes the temporary
directory tree on every path.  `is_skybrush_installed` models the
success of the `import` probe. -/

inductive FsEvent where
  | acquireTempDir (dir : String)
  | writeFile (path : String)
  | removeTree (dir : String)
deriving DecidableEq, Repr

/-- `listStarts pre l` : `pre` is an initial segment of `l`. -/
def listStarts : List Char → List Char → Bool
  | [], _ => true
  | _ :: _, [] => false
  | a :: as, b :: bs => a == b && listStarts as bs

/-- `strUnder d p` : path `p` lies under directory `d`. -/
def strUnder (d p : String) : Bool := listStarts d.data p.data

/-- Paths still existing after replaying a file-system event trace. -/
def residualPaths (events : List FsEvent) : List String :=
  events.foldl (fun acc e =>
    match e with
    | .acquireTempDir d => acc ++ [d]
    | .writeFile p => acc ++ [p]
    | .removeTree d => acc.filter (fun p => !strUnder d p)) []

/-- `SkybrushConverter.to_skyc(output)`, modelled as outcome plus
file-system trace.  The renderer invocation itself is external and
outside the temporary directory, so it does not appear in the trace. -/
def SkybrushConverter.to_skyc (self : SkybrushConverter)
    (is_skybrush_installed : Bool) (output : String) :
    Except PyError Unit × List FsEvent :=
  let work_dir := "tmpdir"
  let mkTrace := [FsEvent.acquireTempDir work_dir,
    FsEvent.writeFile (work_dir ++ "/show.json")]
  if is_skybrush_installed then
    (.ok (), mkTrace ++ [FsEvent.removeTree work_dir])
  else
    (.error (.notImplementedError "Online Skybrush converter not implemented yet"),
      mkTrace ++ [FsEvent.removeTree work_dir])

/-! ### Helper lemmas -/

/-- In a strictly-time-increasing point list, every element's time is at
most the last element's time. -/
theorem mem_t_le_getLast :
    ∀ (l : List Point4D) (q : Point4D),
      l.Pairwise (fun a b => a.t < b.t) → l.getLast? = some q →
        ∀ a ∈ l, a.t ≤ q.t := by
  intro l
  induction l with
  | nil => intro q _ hq; simp at hq
  | cons x xs ih =>
    intro q hp hq a ha
    cases xs with
    | nil =>
      simp at hq ha
      rw [ha, hq]
    | cons y ys =>
      rw [List.getLast?_cons_cons] at hq
      rcases List.mem_cons.mp ha with rfl | ha'
      · have hqmem : q ∈ y :: ys := List.mem_of_getLast?_eq_some hq
        exact le_of_lt (List.rel_of_pairwise_cons hp hqmem)
      · exact ih q hp.of_cons hq a ha'
/-- Claim C1: `Trajectory.append` raises the ordering error (the source's
`ValueError`, the spec's `OrderingError`) exactly when the trajectory is
non-empty and its last point's `t` is `>=` the new point's `t`; on failure
the points sequence is unchanged; on success the point is appended at the
end, and strict increase of the stored times is preserved. -/
theorem trajectory_append_spec (tr : Trajectory) (p : Point4D) :
    ((tr.append p).1 =
        .error (.valueError "New point must come after existing trajectory in time")
      ↔ ∃ q, tr.points.getLast? = some q ∧ q.t ≥ p.t) ∧
    (∀ e : PyError, (tr.append p).1 = .error e → (tr.append p).2 = tr) ∧
    ((tr.append p).1 = .ok () → (tr.append p).2.points = tr.points ++ [p]) ∧
    (List.Pairwise (fun a b : Point4D => a.t < b.t) tr.points →
      (tr.append p).1 = .ok () →
      List.Pairwise (fun a b : Point4D => a.t < b.t) (tr.append p).2.points) := by
  unfold Trajectory.append
  cases hl : tr.points.getLast? with
  | none =>
    refine ⟨by simp [hl], by simp, by simp, ?_⟩
    intro hp _
    have : tr.points = [] := List.getLast?_eq_none_iff.mp hl
    simp [this]
  | some last =>
    by_cases hge : last.t ≥ p.t
    · refine ⟨by simp [hge, hl], by simp [hge], by simp [hge], ?_⟩
      intro _ hok
      simp [hge] at hok
    · refine ⟨?_, by simp [hge], by simp [hge], ?_⟩
      · simp only [hge, if_false]
        constructor
        · intro h; simp at h
        · rintro ⟨q, hq, hqt⟩
          injection hq with hq
          subst hq
          exact absurd hqt hge
      · intro hp _
        simp only [hge, if_false]
        rw [List.pairwise_append]
        refine ⟨hp, List.pairwise_singleton _ _, ?_⟩
        intro a ha b hb
        rw [List.mem_singleton] at hb
        subst hb
        have := mem_t_le_getLast tr.points last hp hl a ha
        exact lt_of_le_of_lt this (lt_of_not_ge hge)

theorem trajectory_append_spec_witness :
    ((Trajectory.mk [⟨1, 0, 0, 0⟩]).points.getLast? = some ⟨1, 0, 0, 0⟩
        ∧ (⟨1, 0, 0, 0⟩ : Point4D).t ≥ (⟨1, 5, 5, 5⟩ : Point4D).t) ∧
    ((Trajectory.mk [⟨1, 0, 0, 0⟩]).append ⟨1, 5, 5, 5⟩).2 = Trajectory.mk [⟨1, 0, 0, 0⟩] :=
  ⟨⟨rfl, by decide⟩, by
    have h := trajectory_append_spec (Trajectory.mk [⟨1, 0, 0, 0⟩]) ⟨1, 5, 5, 5⟩
    exact h.2.1 _ (h.1.mpr ⟨⟨1, 0, 0, 0⟩, rfl, by decide⟩)⟩

/-- Claim C3: `LightCode.append` raises the ordering error (the source's
`ValueError`, the spec's `OrderingError`) exactly when the sequence is
non-empty and the last color's `t` is strictly greater than the new
color's `t`; appending at an equal timestamp succeeds; on failure the
colors sequence is unchanged; on success the color is appended at the
end. -/
theorem lightcode_append_spec (lc : LightCode) (c : Color4D) :
    ((lc.append c).1 =
        .error (.valueError "New color must come after existing light code in time")
      ↔ ∃ q, lc.colors.getLast? = some q ∧ q.t > c.t) ∧
    ((∃ q, lc.colors.getLast? = some q ∧ q.t = c.t) → (lc.append c).1 = .ok ()) ∧
    (∀ e : PyError, (lc.append c).1 = .error e → (lc.append c).2 = lc) ∧
    ((lc.append c).1 = .ok () → (lc.append c).2.colors = lc.colors ++ [c]) := by
  unfold LightCode.append
  cases hl : lc.colors.getLast? with
  | none => exact ⟨by simp, by simp, by simp, by simp⟩
  | some last =>
    by_cases hgt : last.t > c.t
    · refine ⟨by simp [hgt], ?_, by simp [hgt], by simp [hgt]⟩
      rintro ⟨q, hq, hqt⟩
      injection hq with hq
      subst hq
      rw [hqt] at hgt
      exact absurd hgt (lt_irrefl _)
    · refine ⟨?_, by simp [hgt], by simp [hgt], by simp [hgt]⟩
      simp only [hgt, if_false]
      constructor
      · intro h; simp at h
      · rintro ⟨q, hq, hqt⟩
        injection hq with hq
        subst hq
        exact absurd hqt hgt

theorem lightcode_append_spec_witness :
    ((LightCode.mk [⟨0, 1, 2, 3, true⟩]).colors.getLast? = some ⟨0, 1, 2, 3, true⟩
        ∧ (⟨0, 1, 2, 3, true⟩ : Color4D).t = (⟨0, 9, 9, 9, false⟩ : Color4D).t) ∧
    ((LightCode.mk [⟨0, 1, 2, 3, true⟩]).append ⟨0, 9, 9, 9, false⟩).1 = .ok () :=
  ⟨⟨rfl, rfl⟩,
    (lightcode_append_spec (LightCode.mk [⟨0, 1, 2, 3, true⟩]) ⟨0, 9, 9, 9, false⟩).2.1
      ⟨⟨0, 1, 2, 3, true⟩, rfl, rfl⟩⟩

/-- Claim C4, counterexample: constructing a `Trajectory` from two points
with equal timestamps keeps both, so the stored sequence is not strictly
increasing in `t` — the constructor sorts but does not deduplicate. -/
theorem trajectory_ofList_counterexample :
    (Trajectory.ofList [⟨0, 0, 0, 0⟩, ⟨0, 1, 1, 1⟩]).points.map Point4D.t = [0, 0] ∧
    ¬ List.Pairwise (fun a b : Point4D => a.t < b.t)
        (Trajectory.ofList [⟨0, 0, 0, 0⟩, ⟨0, 1, 1, 1⟩]).points := by decide

/-- Claim C4, amended: a `Trajectory` constructed from any input list
holds a permutation of the input sorted non-decreasingly by `t`; when the
input timestamps are pairwise distinct the stored sequence is strictly
increasing in `t`. -/
theorem trajectory_ofList_sorted (l : List Point4D) :
    (Trajectory.ofList l).points.Perm l ∧
    List.Sorted ptLE (Trajectory.ofList l).points ∧
    ((l.map Point4D.t).Nodup →
      List.Pairwise (fun a b : Point4D => a.t < b.t) (Trajectory.ofList l).points) := by
  refine ⟨List.perm_insertionSort ptLE l, List.sorted_insertionSort ptLE l, ?_⟩
  intro hnd
  have hperm : (Trajectory.ofList l).points.Perm l := List.perm_insertionSort ptLE l
  have hnd' : ((Trajectory.ofList l).points.map Point4D.t).Nodup :=
    ((hperm.map Point4D.t).nodup_iff).mpr hnd
  have hne : List.Pairwise (fun a b : Point4D => a.t ≠ b.t)
      (Trajectory.ofList l).points :=
    (List.pairwise_map).mp hnd'
  have hs : List.Pairwise ptLE (Trajectory.ofList l).points :=
    List.sorted_insertionSort ptLE l
  exact (hs.and hne).imp (fun h => lt_of_le_of_ne h.1 h.2)

theorem trajectory_ofList_sorted_witness :
    (([⟨1, 0, 0, 0⟩, ⟨0, 0, 0, 0⟩] : List Point4D).map Point4D.t).Nodup ∧
    List.Pairwise (fun a b : Point4D => a.t < b.t)
      (Trajectory.ofList [⟨1, 0, 0, 0⟩, ⟨0, 0, 0, 0⟩]).points :=
  ⟨by decide, (trajectory_ofList_sorted _).2.2 (by decide)⟩

/-- Claim C5: `Trajectory.as_dict n` returns exactly a document with
`version = 1` whose `points` has one entry per stored point, in stored
order (entry `i` comes from point `i`, so no re-sorting happens at export
time), each entry being the rounded time, the rounded coordinate triple
and an always-empty reserved sequence. -/
theorem trajectory_as_dict_spec (tr : Trajectory) (n : ℕ) :
    (tr.as_dict n).version = 1 ∧
    (tr.as_dict n).points.length = tr.points.length ∧
    (∀ e ∈ (tr.as_dict n).points, e.reserved = []) ∧
    (∀ (i : ℕ) (p : Point4D), tr.points[i]? = some p →
      (tr.as_dict n).points[i]? =
        some ⟨pyRound p.t n, (pyRound p.x n, pyRound p.y n, pyRound p.z n), []⟩) := by
  refine ⟨rfl, by simp [Trajectory.as_dict], ?_, ?_⟩
  · intro e he
    simp only [Trajectory.as_dict, List.mem_map] at he
    obtain ⟨p, _, rfl⟩ := he
    rfl
  · intro i p hp
    simp [Trajectory.as_dict, List.getElem?_map, hp]

theorem trajectory_as_dict_spec_witness :
    (Trajectory.mk [⟨1, 2, 3, 4⟩]).points[0]? = some ⟨1, 2, 3, 4⟩ ∧
    ((Trajectory.mk [⟨1, 2, 3, 4⟩]).as_dict 3).points[0]? =
      some ⟨pyRound 1 3, (pyRound 2 3, pyRound 3 3, pyRound 4 3), []⟩ :=
  ⟨rfl, (trajectory_as_dict_spec (Trajectory.mk [⟨1, 2, 3, 4⟩]) 3).2.2.2 0 ⟨1, 2, 3, 4⟩ rfl⟩

/-- Two stably sorted string lists are equal exactly when the inputs are
permutations of each other. -/
theorem pySortedStr_eq_iff_perm (l₁ l₂ : List String) :
    pySortedStr l₁ = pySortedStr l₂ ↔ l₁.Perm l₂ := by
  constructor
  · intro h
    have p₁ : (pySortedStr l₁).Perm l₁ := List.perm_insertionSort strLE l₁
    have p₂ : (pySortedStr l₂).Perm l₂ := List.perm_insertionSort strLE l₂
    refine p₁.symm.trans ?_
    rw [h]
    exact p₂
  · intro h
    exact List.eq_of_perm_of_sorted
      ((List.perm_insertionSort strLE l₁).trans
        (h.trans (List.perm_insertionSort strLE l₂).symm))
      (List.sorted_insertionSort strLE l₁)
      (List.sorted_insertionSort strLE l₂)

/-- Claim C2, counterexample: with mismatched key sets the constructor
does raise, but the `show_title` field has already been assigned at the
moment the error is raised, so the failure is not atomic in the claimed
sense ("no field of the converter is set before the error is raised" is
false). -/
theorem skybrush_init_counterexample :
    (SkybrushConverter.init "T" [("a", Trajectory.mk [])] []).1 =
      .error (.valueError
        "Trajectories and lights must contain equal number of items, one for each drone.") ∧
    (SkybrushConverter.init "T" [("a", Trajectory.mk [])] []).2.show_title = some "T" ∧
    (SkybrushConverter.init "T" [("a", Trajectory.mk [])] []).2 ≠ ⟨none, none, none⟩ :=
  ⟨rfl, rfl, by decide⟩

/-- Claim C2, amended: `SkybrushConverter` construction succeeds exactly
when the trajectory and light-code mappings have equal key sets (keys
unique, as in Python dicts), raising the mismatch error (the source's
`ValueError`, the spec's `MismatchedDronesError`) otherwise; on failure no
converter is produced and the two mapping fields are unassigned, but the
title field has already been assigned before the validation check. -/
theorem skybrush_init_spec (title : String) (trajs : List (String × Trajectory))
    (lgts : List (String × LightCode))
    (h₁ : (dictKeys trajs).Nodup) (h₂ : (dictKeys lgts).Nodup) :
    (((SkybrushConverter.init title trajs lgts).1 = .ok ⟨title, trajs, lgts⟩) ↔
      ∀ k, k ∈ dictKeys trajs ↔ k ∈ dictKeys lgts) ∧
    (¬ (∀ k, k ∈ dictKeys trajs ↔ k ∈ dictKeys lgts) →
      SkybrushConverter.init title trajs lgts =
        (.error (.valueError
          "Trajectories and lights must contain equal number of items, one for each drone."),
         ⟨some title, none, none⟩)) := by
  have hiff : (pySortedStr (dictKeys trajs) = pySortedStr (dictKeys lgts)) ↔
      (∀ k, k ∈ dictKeys trajs ↔ k ∈ dictKeys lgts) := by
    rw [pySortedStr_eq_iff_perm]
    exact List.perm_ext_iff_of_nodup h₁ h₂
  unfold SkybrushConverter.init
  by_cases hc : pySortedStr (dictKeys trajs) = pySortedStr (dictKeys lgts)
  · rw [if_neg (fun hne => hne hc)]
    exact ⟨⟨fun _ => hiff.mp hc, fun _ => rfl⟩,
      fun hmem => absurd (hiff.mp hc) hmem⟩
  · rw [if_pos hc]
    exact ⟨⟨fun h => Except.noConfusion h, fun hmem => absurd (hiff.mpr hmem) hc⟩,
      fun _ => rfl⟩

theorem skybrush_init_spec_witness :
    (dictKeys [("a", Trajectory.mk [])]).Nodup ∧
    (dictKeys [("a", LightCode.mk [])]).Nodup ∧
    (SkybrushConverter.init "T" [("a", Trajectory.mk [])] [("a", LightCode.mk [])]).1 =
      .ok ⟨"T", [("a", Trajectory.mk [])], [("a", LightCode.mk [])]⟩ :=
  ⟨by decide, by decide,
    (skybrush_init_spec "T" _ _ (by decide) (by decide)).1.mpr (fun _ => Iff.rfl)⟩

/-- The drone names in a successfully built drones list are exactly the
name list it was built over. -/
theorem dronesData_names (c : SkybrushConverter) (n : ℕ) :
    ∀ (ks : List String) (ds : List DroneEntry),
      c.dronesData n ks = .ok ds → ds.map (fun d => d.settings.name) = ks := by
  intro ks
  induction ks with
  | nil =>
    intro ds h
    unfold SkybrushConverter.dronesData at h
    injection h with h
    rw [← h]
    rfl
  | cons k ks ih =>
    intro ds h
    unfold SkybrushConverter.dronesData at h
    cases hd : c.drone_data_as_dict k n with
    | error e => rw [hd] at h; exact Except.noConfusion h
    | ok d =>
      rw [hd] at h
      cases hrest : c.dronesData n ks with
      | error e => rw [hrest] at h; exact Except.noConfusion h
      | ok ds' =>
        rw [hrest] at h
        injection h with h
        subst h
        have hname : d.settings.name = k := by
          unfold SkybrushConverter.drone_data_as_dict at hd
          cases h₁ : dictGet c.lights k with
          | none => rw [h₁] at hd; exact Except.noConfusion hd
          | some lc =>
            rw [h₁] at hd
            cases h₂ : dictGet c.trajectories k with
            | none => rw [h₂] at hd; exact Except.noConfusion hd
            | some tr =>
              rw [h₂] at hd
              injection hd with hd
              rw [← hd]
        simp [hname, ih ds' hrest]

/-- Claim C6: the `drones` array of a successfully produced document
lists the drones in natural-sort order of their names: the name sequence
equals `natsorted` of the trajectory keys, is sorted under the
natural-sort order and is a permutation of the keys; in particular
`["drone10", "drone2", "drone1"]` sorts to
`["drone1", "drone2", "drone10"]`, not lexicographically. -/
theorem as_dict_drone_order (c : SkybrushConverter) (n : ℕ) (doc : ShowDoc)
    (h : c.as_dict n = .ok doc) :
    (doc.swarm.drones.map (fun d => d.settings.name) =
        natsorted (dictKeys c.trajectories) ∧
      List.Sorted natLE (doc.swarm.drones.map (fun d => d.settings.name)) ∧
      (doc.swarm.drones.map (fun d => d.settings.name)).Perm
        (dictKeys c.trajectories)) ∧
    natsorted ["drone10", "drone2", "drone1"] = ["drone1", "drone2", "drone10"] := by
  have hmain : doc.swarm.drones.map (fun d => d.settings.name) =
      natsorted (dictKeys c.trajectories) := by
    unfold SkybrushConverter.as_dict at h
    cases hd : c.dronesData n (natsorted (dictKeys c.trajectories)) with
    | error e => rw [hd] at h; exact Except.noConfusion h
    | ok ds =>
      rw [hd] at h
      injection h with h
      rw [← h]
      exact dronesData_names c n _ ds hd
  refine ⟨⟨hmain, ?_, ?_⟩, by decide⟩
  · rw [hmain]
    exact List.sorted_insertionSort natLE _
  · rw [hmain]
    exact List.perm_insertionSort natLE _

theorem as_dict_drone_order_witness :
    (SkybrushConverter.mk "show"
        [("drone10", Trajectory.mk []), ("drone2", Trajectory.mk []),
          ("drone1", Trajectory.mk [])]
        [("drone10", LightCode.mk []), ("drone2", LightCode.mk []),
          ("drone1", LightCode.mk [])]).as_dict 3 =
      .ok ⟨1, (),
        ⟨[⟨"generic", ⟨"drone1", ⟨[], 1⟩, ⟨[], 1⟩⟩⟩,
          ⟨"generic", ⟨"drone2", ⟨[], 1⟩, ⟨[], 1⟩⟩⟩,
          ⟨"generic", ⟨"drone10", ⟨[], 1⟩, ⟨[], 1⟩⟩⟩]⟩, ⟨"show"⟩⟩ ∧
    (⟨1, (),
        ⟨[⟨"generic", ⟨"drone1", ⟨[], 1⟩, ⟨[], 1⟩⟩⟩,
          ⟨"generic", ⟨"drone2", ⟨[], 1⟩, ⟨[], 1⟩⟩⟩,
          ⟨"generic", ⟨"drone10", ⟨[], 1⟩, ⟨[], 1⟩⟩⟩]⟩, ⟨"show"⟩⟩ : ShowDoc).swarm.drones.map
        (fun d => d.settings.name) =
      natsorted (dictKeys [("drone10", Trajectory.mk []), ("drone2", Trajectory.mk []),
        ("drone1", Trajectory.mk [])]) := by
  refine ⟨rfl, ?_⟩
  exact (as_dict_drone_order
    (SkybrushConverter.mk "show"
      [("drone10", Trajectory.mk []), ("drone2", Trajectory.mk []),
        ("drone1", Trajectory.mk [])]
      [("drone10", LightCode.mk []), ("drone2", LightCode.mk []),
        ("drone1", LightCode.mk [])]) 3
    ⟨1, (),
      ⟨[⟨"generic", ⟨"drone1", ⟨[], 1⟩, ⟨[], 1⟩⟩⟩,
        ⟨"generic", ⟨"drone2", ⟨[], 1⟩, ⟨[], 1⟩⟩⟩,
        ⟨"generic", ⟨"drone10", ⟨[], 1⟩, ⟨[], 1⟩⟩⟩]⟩, ⟨"show"⟩⟩ rfl).1.1

/-- Claim C7: end-to-end example — title `"Demo"`, one drone `"d1"` with
trajectory points `(0,0,0,0)`, `(1,1,2,3)` and light keyframes
`(0,255,0,0,fade)`, `(1,0,255,0,cut)`, precision 3, yields the exact
document with `version 1`, empty settings, `meta.title "Demo"`, the
claimed `trajectory.points` and the claimed `lights.data` with `is_fade`
emitted as a literal boolean. -/
theorem demo_end_to_end :
    (SkybrushConverter.mk "Demo"
        [("d1", Trajectory.ofList [⟨0, 0, 0, 0⟩, ⟨1, 1, 2, 3⟩])]
        [("d1", LightCode.ofList
            [⟨0, 255, 0, 0, true⟩, ⟨1, 0, 255, 0, false⟩])]).as_dict 3 =
      .ok ⟨1, (),
        ⟨[⟨"generic",
          ⟨"d1",
            ⟨[⟨0, (255, 0, 0), true⟩, ⟨1, (0, 255, 0), false⟩], 1⟩,
            ⟨[⟨0, (0, 0, 0), []⟩, ⟨1, (1, 2, 3), []⟩], 1⟩⟩⟩]⟩,
        ⟨"Demo"⟩⟩ := rfl

/-- Claim C8, counterexample: `Color4D` performs no range validation and
`LightCode.as_dict` passes channels through unchanged, so a stored
channel value `300` is emitted as `300`, outside `[0, 255]` — nothing is
rejected or clamped at the `Color4D` boundary. -/
theorem color_range_counterexample :
    ((LightCode.mk [⟨0, 300, 0, 0, true⟩]).as_dict 3).data.map (fun e => e.rgb) =
      [(300, 0, 0)] ∧
    ¬ ((300 : ℤ) ≤ 255) := by decide

/-- Claim C8, amended: the emitted channel triples are exactly the stored
channel triples (Python's `round` with `ndigits` is the identity on
integers), so the output channels lie within `[0, 255]` exactly when the
stored ones do; no rejection or clamping happens at the `Color4D`
boundary. -/
theorem lightcode_channels_spec (lc : LightCode) (n : ℕ) :
    ((lc.as_dict n).data.map (fun e => e.rgb) =
      lc.colors.map (fun c => (c.r, c.g, c.b))) ∧
    ((∀ c ∈ lc.colors, 0 ≤ c.r ∧ c.r ≤ 255 ∧ 0 ≤ c.g ∧ c.g ≤ 255 ∧
        0 ≤ c.b ∧ c.b ≤ 255) →
      ∀ e ∈ (lc.as_dict n).data, 0 ≤ e.rgb.1 ∧ e.rgb.1 ≤ 255 ∧
        0 ≤ e.rgb.2.1 ∧ e.rgb.2.1 ≤ 255 ∧ 0 ≤ e.rgb.2.2 ∧ e.rgb.2.2 ≤ 255) := by
  constructor
  · simp [LightCode.as_dict, List.map_map]
  · intro hb e he
    simp only [LightCode.as_dict, List.mem_map] at he
    obtain ⟨c, hc, rfl⟩ := he
    exact hb c hc

theorem lightcode_channels_spec_witness :
    (∀ c ∈ (LightCode.mk [⟨0, 10, 20, 30, true⟩]).colors, 0 ≤ c.r ∧ c.r ≤ 255 ∧
      0 ≤ c.g ∧ c.g ≤ 255 ∧ 0 ≤ c.b ∧ c.b ≤ 255) ∧
    (∀ e ∈ ((LightCode.mk [⟨0, 10, 20, 30, true⟩]).as_dict 3).data,
      0 ≤ e.rgb.1 ∧ e.rgb.1 ≤ 255 ∧ 0 ≤ e.rgb.2.1 ∧ e.rgb.2.1 ≤ 255 ∧
      0 ≤ e.rgb.2.2 ∧ e.rgb.2.2 ≤ 255) :=
  ⟨by decide, (lightcode_channels_spec (LightCode.mk [⟨0, 10, 20, 30, true⟩]) 3).2 (by decide)⟩

/-- Claim C9: `to_skyc` leaves no residual temporary files regardless of
success or failure (the temporary working directory and the file written
inside it are removed by the scoped acquisition), and when the external
backend is unavailable it raises the source's `NotImplementedError`
(the spec's `ExternalToolMissingError`). -/
theorem to_skyc_spec (c : SkybrushConverter) (installed : Bool) (output : String) :
    residualPaths (c.to_skyc installed output).2 = [] ∧
    (installed = false →
      (c.to_skyc installed output).1 =
        .error (.notImplementedError "Online Skybrush converter not implemented yet")) := by
  cases installed
  · exact ⟨rfl, fun _ => rfl⟩
  · exact ⟨rfl, fun h => Bool.noConfusion h⟩

theorem to_skyc_spec_witness :
    (false = false) ∧
    ((SkybrushConverter.mk "t" [] []).to_skyc false "out.skyc").1 =
      .error (.notImplementedError "Online Skybrush converter not implemented yet") :=
  ⟨rfl, (to_skyc_spec (SkybrushConverter.mk "t" [] []) false "out.skyc").2 rfl⟩

/-- Claim C10: exporting is read-only — `as_dict` on `Trajectory`,
`LightCode` and `SkybrushConverter`, and the text serialization
`as_json`, leave the object state unchanged, and calling the method a
second time on the post-call state yields an equal document (resp. text). -/
theorem export_read_only (tr : Trajectory) (lc : LightCode)
    (c : SkybrushConverter) (n indent : ℕ) :
    (tr.as_dict_run n).2 = tr ∧ (lc.as_dict_run n).2 = lc ∧
    (c.as_dict_run n).2 = c ∧ (c.as_json_run indent n).2 = c ∧
    ((tr.as_dict_run n).2.as_dict_run n).1 = (tr.as_dict_run n).1 ∧
    ((lc.as_dict_run n).2.as_dict_run n).1 = (lc.as_dict_run n).1 ∧
    ((c.as_dict_run n).2.as_dict_run n).1 = (c.as_dict_run n).1 ∧
    ((c.as_json_run indent n).2.as_json_run indent n).1 = (c.as_json_run indent n).1 :=
  ⟨rfl, rfl, rfl, rfl, rfl, rfl, rfl, rfl⟩
